import Mathlib

/-!
Shallow embedding of the MoneySplit tax engine (`Logic/tax_engine.py` and the
bracket functions of `DB/setup.py`).  Money is modelled with `ℚ`; Python's
`float("inf")` bracket limit is modelled by `none`.  The SQLite-backed bracket
store is modelled by an explicit provider function `BracketDB`; the rows that
`seed_default_brackets` inserts are reproduced in `seedDB`.  Python's
`raise ValueError` paths are modelled with `Except TaxError`.
-/

/-- A tax bracket: upper income limit (`none` models `float("inf")`) and
marginal rate, mirroring the `(limit, rate)` tuples of the source. -/
structure TaxBracket where
  limit : Option ℚ
  rate : ℚ
deriving DecidableEq

/-- The external bracket provider: `(country, tax_type) → bracket rows`,
modelling `get_tax_brackets` of `DB/setup.py` (rows sorted by the caller). -/
abbrev BracketDB := String → String → List TaxBracket

/-- Typed error kinds for the `raise ValueError` sites of the engine. -/
inductive TaxError where
  | InvalidInput
  | MissingBrackets
  | SalaryExceedsProfit
  | NoViableStrategy
deriving DecidableEq

/-- The result record of `calculate_project_taxes`.  Keys that a branch of the
Python code omits from its dict (`se_tax`, `state_tax`,
`standard_deduction_used` for Business; `company_retained` for Individual) are
modelled as `0`. -/
structure TaxResult where
  gross_income : ℚ
  corporate_tax : ℚ
  personal_tax : ℚ
  se_tax : ℚ
  state_tax : ℚ
  dividend_tax : ℚ
  total_tax : ℚ
  net_income_group : ℚ
  net_income_per_person : ℚ
  effective_rate : ℚ
  standard_deduction_used : ℚ
  company_retained : ℚ
deriving DecidableEq

/-- Result dict of `calculate_self_employment_tax`. -/
structure SETaxResult where
  social_security_tax : ℚ
  medicare_tax : ℚ
  additional_medicare_tax : ℚ
  total_se_tax : ℚ
deriving DecidableEq

/-- Result dict of `calculate_canada_tax`. -/
structure CanadaTax where
  federal_tax : ℚ
  provincial_tax : ℚ
  total_tax : ℚ
deriving DecidableEq

/-- One entry of the `STATE_TAX_RATES` table. -/
structure StateData where
  brackets : List TaxBracket
  standard_deduction : ℚ
deriving DecidableEq

/-- Result dict of `calculate_optimal_salary` (the `reason` string is
presentational and omitted). -/
structure OptimalSalary where
  recommended_salary : ℚ
  dividend_amount : ℚ
deriving DecidableEq

/-- Result dict of `get_optimal_strategy` (the `strategy_name` labels are
presentational and omitted; `all_strategies` keeps the enumeration order). -/
structure OptimalResult where
  all_strategies : List TaxResult
  optimal : TaxResult
  worst : TaxResult
  savings : ℚ
deriving DecidableEq

/-- `DIVIDEND_TAX_RATES` table. -/
def DIVIDEND_TAX_RATES (country : String) : Option ℚ :=
  if country = "US" then some 0.15
  else if country = "Spain" then some 0.19
  else none

/-- `STANDARD_DEDUCTIONS` table. -/
def STANDARD_DEDUCTIONS (country : String) : Option ℚ :=
  if country = "US" then some 13850
  else if country = "Spain" then some 5550
  else none

/-- `SE_TAX_RATES["social_security"]`. -/
def SE_social_security : ℚ := 0.124

/-- `SE_TAX_RATES["ss_wage_base"]`. -/
def SE_ss_wage_base : ℚ := 160200

/-- `SE_TAX_RATES["medicare"]`. -/
def SE_medicare : ℚ := 0.029

/-- `SE_TAX_RATES["additional_medicare"]`. -/
def SE_additional_medicare : ℚ := 0.009

/-- `SE_TAX_RATES["additional_medicare_threshold"]`. -/
def SE_additional_medicare_threshold : ℚ := 200000

/-- `UK_CORPORATE_TAX_RATE`. -/
def UK_CORPORATE_TAX_RATE : ℚ := 0.19

/-- `CANADA_CORPORATE_TAX_RATE`. -/
def CANADA_CORPORATE_TAX_RATE : ℚ := 0.15

/-- `QBI_DEDUCTION_RATE`. -/
def QBI_DEDUCTION_RATE : ℚ := 0.20

/-- California brackets of `STATE_TAX_RATES`. -/
def CA_STATE_BRACKETS : List TaxBracket :=
  [⟨some 10099, 0.01⟩, ⟨some 23942, 0.02⟩, ⟨some 37788, 0.04⟩,
   ⟨some 52455, 0.06⟩, ⟨some 66295, 0.08⟩, ⟨some 338639, 0.093⟩,
   ⟨some 406364, 0.103⟩, ⟨some 677275, 0.113⟩, ⟨none, 0.133⟩]

/-- New York brackets of `STATE_TAX_RATES`. -/
def NY_STATE_BRACKETS : List TaxBracket :=
  [⟨some 8500, 0.04⟩, ⟨some 11700, 0.045⟩, ⟨some 13900, 0.0525⟩,
   ⟨some 80650, 0.055⟩, ⟨some 215400, 0.06⟩, ⟨some 1077550, 0.0685⟩,
   ⟨some 5000000, 0.0965⟩, ⟨some 25000000, 0.103⟩, ⟨none, 0.109⟩]

/-- `STATE_TAX_RATES` table. -/
def STATE_TAX_RATES (state : String) : Option StateData :=
  if state = "CA" then some ⟨CA_STATE_BRACKETS, 5202⟩
  else if state = "NY" then some ⟨NY_STATE_BRACKETS, 8000⟩
  else if state = "TX" then some ⟨[⟨none, 0⟩], 0⟩
  else if state = "FL" then some ⟨[⟨none, 0⟩], 0⟩
  else none

/-- `UK_TAX_BRACKETS`. -/
def UK_TAX_BRACKETS : List TaxBracket :=
  [⟨some 12570, 0⟩, ⟨some 50270, 0.20⟩, ⟨some 125140, 0.40⟩, ⟨none, 0.45⟩]

/-- `CANADA_FEDERAL_BRACKETS`. -/
def CANADA_FEDERAL_BRACKETS : List TaxBracket :=
  [⟨some 53359, 0.15⟩, ⟨some 106717, 0.205⟩, ⟨some 165430, 0.26⟩,
   ⟨some 235675, 0.29⟩, ⟨none, 0.33⟩]

/-- `CANADA_ONTARIO_BRACKETS`. -/
def CANADA_ONTARIO_BRACKETS : List TaxBracket :=
  [⟨some 49231, 0.0505⟩, ⟨some 98463, 0.0915⟩, ⟨some 150000, 0.1116⟩,
   ⟨some 220000, 0.1216⟩, ⟨none, 0.1316⟩]

/-- The US Individual rows inserted by `seed_default_brackets` of
`DB/setup.py`. -/
def SEED_US_INDIVIDUAL : List TaxBracket :=
  [⟨some 10275, 0.10⟩, ⟨some 41775, 0.12⟩, ⟨some 89075, 0.22⟩,
   ⟨some 170050, 0.24⟩, ⟨some 215950, 0.32⟩, ⟨some 539900, 0.35⟩,
   ⟨none, 0.37⟩]

/-- The Spain Individual rows inserted by `seed_default_brackets`. -/
def SEED_SPAIN_INDIVIDUAL : List TaxBracket :=
  [⟨some 12450, 0.19⟩, ⟨some 20200, 0.24⟩, ⟨some 35200, 0.30⟩,
   ⟨some 60000, 0.37⟩, ⟨some 300000, 0.45⟩, ⟨none, 0.47⟩]

/-- The bracket store contents after `seed_default_brackets` of
`DB/setup.py`: US and Spain rows, nothing else. -/
def seedDB : BracketDB := fun country tax_type =>
  if country = "US" ∧ tax_type = "Individual" then SEED_US_INDIVIDUAL
  else if country = "US" ∧ tax_type = "Business" then [⟨none, 0.21⟩]
  else if country = "Spain" ∧ tax_type = "Individual" then SEED_SPAIN_INDIVIDUAL
  else if country = "Spain" ∧ tax_type = "Business" then [⟨none, 0.25⟩]
  else []

/-- The bracket loop shared by `calculate_tax_from_brackets`
(`Logic/tax_engine.py`) and `calculate_tax_from_db` (`DB/setup.py`):
`tax` and `prev` are the loop accumulators, and the `none` (infinite) limit
case mirrors `income > float("inf")` being false, taking the `else` branch
and breaking out of the loop. -/
def taxLoop (income : ℚ) : ℚ → ℚ → List TaxBracket → ℚ
  | tax, _, [] => tax
  | tax, prev, b :: rest =>
    match b.limit with
    | some l =>
      if l < income then taxLoop income (tax + (l - prev) * b.rate) l rest
      else tax + (income - prev) * b.rate
    | none => tax + (income - prev) * b.rate

/-- `calculate_tax_from_brackets` of `Logic/tax_engine.py`: the progressive
bracket algorithm starting with `tax = 0`, `prev = 0`.  An empty bracket list
falls straight out of the loop and returns `0`. -/
def calculate_tax_from_brackets (income : ℚ) (brackets : List TaxBracket) : ℚ :=
  taxLoop income 0 0 brackets

/-- `calculate_tax_from_db` of `DB/setup.py`: fetches the rows from the
provider, raises (`MissingBrackets`) if there are none, and otherwise runs the
same bracket loop. -/
def calculate_tax_from_db (db : BracketDB) (income : ℚ)
    (country tax_type : String) : Except TaxError ℚ :=
  match db country tax_type with
  | [] => .error .MissingBrackets
  | b :: rest => .ok (taxLoop income 0 0 (b :: rest))

/-- `calculate_self_employment_tax` of `Logic/tax_engine.py`. -/
def calculate_self_employment_tax (income : ℚ) (country : String) :
    SETaxResult :=
  if country ≠ "US" then ⟨0, 0, 0, 0⟩
  else
    let net_se_income := income * 0.9235
    let ss_income := min net_se_income SE_ss_wage_base
    let social_security_tax := ss_income * SE_social_security
    let medicare_tax := net_se_income * SE_medicare
    let additional_medicare_tax :=
      if SE_additional_medicare_threshold < net_se_income then
        (net_se_income - SE_additional_medicare_threshold) *
          SE_additional_medicare
      else 0
    ⟨social_security_tax, medicare_tax, additional_medicare_tax,
     social_security_tax + medicare_tax + additional_medicare_tax⟩

/-- `apply_standard_deduction` of `Logic/tax_engine.py`.  The `state`
argument is truthy in Python only for a non-empty string, hence the `s ≠ ""`
test. -/
def apply_standard_deduction (income : ℚ) (country : String)
    (state : Option String) : ℚ :=
  let deduction := (STANDARD_DEDUCTIONS country).getD 0
  let deduction :=
    match state with
    | some s =>
      if country = "US" ∧ s ≠ "" then
        match STATE_TAX_RATES s with
        | some sd => deduction + sd.standard_deduction
        | none => deduction
      else deduction
    | none => deduction
  max 0 (income - deduction)

/-- `calculate_state_tax` of `Logic/tax_engine.py`. -/
def calculate_state_tax (income : ℚ) (state : String) : ℚ :=
  match STATE_TAX_RATES state with
  | none => 0
  | some sd => calculate_tax_from_brackets income sd.brackets

/-- `calculate_uk_tax` of `Logic/tax_engine.py`. -/
def calculate_uk_tax (income : ℚ) : ℚ :=
  calculate_tax_from_brackets income UK_TAX_BRACKETS

/-- `calculate_canada_tax` of `Logic/tax_engine.py`. -/
def calculate_canada_tax (income : ℚ) : CanadaTax :=
  let federal_tax := calculate_tax_from_brackets income CANADA_FEDERAL_BRACKETS
  let provincial_tax :=
    calculate_tax_from_brackets income CANADA_ONTARIO_BRACKETS
  ⟨federal_tax, provincial_tax, federal_tax + provincial_tax⟩

/-- `apply_qbi_deduction` of `Logic/tax_engine.py`. -/
def apply_qbi_deduction (business_income : ℚ) (country : String) : ℚ :=
  if country = "US" ∧ 0 < business_income then
    business_income * QBI_DEDUCTION_RATE
  else 0

/-- `calculate_optimal_salary` of `Logic/tax_engine.py`. -/
def calculate_optimal_salary (after_corp_tax : ℚ) (country : String) :
    OptimalSalary :=
  if country = "US" then
    let standard_deduction := (STANDARD_DEDUCTIONS "US").getD 13850
    let optimal_salary := min after_corp_tax (44725 + standard_deduction)
    ⟨optimal_salary, max 0 (after_corp_tax - optimal_salary)⟩
  else if country = "Spain" then
    let standard_deduction := (STANDARD_DEDUCTIONS "Spain").getD 5550
    let optimal_salary := min after_corp_tax (20200 + standard_deduction)
    ⟨optimal_salary, max 0 (after_corp_tax - optimal_salary)⟩
  else
    ⟨after_corp_tax * 0.5, after_corp_tax * 0.5⟩

/-- The personal tax charged on a salary in the Business branch, shared
verbatim between the `Salary` and `Mixed` arms of `calculate_project_taxes`
(UK and Canada use their fixed tables; everything else applies the standard
deduction and the DB-backed Individual brackets). -/
def salaryPersonalTax (db : BracketDB) (amount : ℚ) (country : String) :
    Except TaxError ℚ :=
  if country = "UK" then .ok (calculate_uk_tax amount)
  else if country = "Canada" then .ok (calculate_canada_tax amount).total_tax
  else
    calculate_tax_from_db db (apply_standard_deduction amount country none)
      country "Individual"

/-- Steps 1 and 2 of the Business branch of `calculate_project_taxes`:
QBI deduction, then corporate tax (flat rate for UK/Canada, DB brackets
otherwise). -/
def corporate_tax_for (db : BracketDB) (gross_income : ℚ) (country : String) :
    Except TaxError ℚ :=
  let qbi_deduction := apply_qbi_deduction gross_income country
  let taxable_business_income := gross_income - qbi_deduction
  if country = "UK" then .ok (taxable_business_income * UK_CORPORATE_TAX_RATE)
  else if country = "Canada" then
    .ok (taxable_business_income * CANADA_CORPORATE_TAX_RATE)
  else calculate_tax_from_db db taxable_business_income country "Business"

/-- The per-person tax tuple `(personal, self-employment, state/provincial)`
of the Individual branch of `calculate_project_taxes`
(`Logic/tax_engine.py`, lines 336-413).  Note that the source calls
`apply_standard_deduction(individual_income, country)` without passing the
state, so no state standard deduction is applied here. -/
def individualPerPerson (db : BracketDB) (individual_income : ℚ)
    (country : String) (state : Option String) :
    Except TaxError (ℚ × ℚ × ℚ) :=
  if country = "UK" then
    .ok (calculate_uk_tax individual_income, 0, 0)
  else if country = "Canada" then
    let canada_taxes := calculate_canada_tax individual_income
    .ok (canada_taxes.federal_tax, 0, canada_taxes.provincial_tax)
  else
    let taxable_income :=
      apply_standard_deduction individual_income country none
    match calculate_tax_from_db db taxable_income country "Individual" with
    | .error e => .error e
    | .ok personal_tax_per_person =>
      let se_tax_per_person :=
        (calculate_self_employment_tax individual_income country).total_se_tax
      let state_tax_per_person :=
        match state with
        | some s =>
          if country = "US" ∧ s ≠ "" then
            calculate_state_tax individual_income s
          else 0
        | none => 0
      .ok (personal_tax_per_person, se_tax_per_person, state_tax_per_person)

/-- The Individual branch of `calculate_project_taxes`
(`Logic/tax_engine.py`, lines 333-441): per-person taxes via
`individualPerPerson`, then the totals of the returned dict. -/
def individualResult (db : BracketDB) (revenue costs : ℚ) (num_people : Int)
    (country : String) (state : Option String) : Except TaxError TaxResult :=
  let gross_income := revenue - costs
  let individual_income := gross_income / (num_people : ℚ)
  match individualPerPerson db individual_income country state with
  | .error e => .error e
  | .ok (personal_tax_per_person, se_tax_per_person, state_tax_per_person) =>
    let n : ℚ := (num_people : ℚ)
    let total_tax_per_person :=
      personal_tax_per_person + se_tax_per_person + state_tax_per_person
    let total_personal_tax := total_tax_per_person * n
    let net_income_per_person := individual_income - total_tax_per_person
    .ok
      { gross_income := gross_income
        corporate_tax := 0
        personal_tax := personal_tax_per_person * n
        se_tax := se_tax_per_person * n
        state_tax := state_tax_per_person * n
        dividend_tax := 0
        total_tax := total_personal_tax
        net_income_group := net_income_per_person * n
        net_income_per_person := net_income_per_person
        effective_rate :=
          if 0 < gross_income then total_personal_tax / gross_income * 100
          else 0
        standard_deduction_used :=
          if country = "UK" ∨ country = "Canada" then 0
          else (STANDARD_DEDUCTIONS country).getD 0 * n
        company_retained := 0 }

/-- Step 3 of the Business branch of `calculate_project_taxes`
(`Logic/tax_engine.py`, lines 462-635): the distribution arm, producing the
tuple `(personal_tax, dividend_tax, net_income_group, total_tax)`.  An
unrecognized method falls into the final `else` arm, which taxes the whole
`after_corp_tax` through the DB Individual brackets with no standard
deduction. -/
def distributeProfit (db : BracketDB) (corporate_tax after_corp_tax : ℚ)
    (country distribution_method : String) (salary_amount : ℚ) :
    Except TaxError (ℚ × ℚ × ℚ × ℚ) :=
  if distribution_method = "Salary" then
    match salaryPersonalTax db after_corp_tax country with
    | .error e => .error e
    | .ok personal_tax =>
      .ok (personal_tax, 0, after_corp_tax - personal_tax,
           corporate_tax + personal_tax)
  else if distribution_method = "Dividend" then
    let dividend_rate := (DIVIDEND_TAX_RATES country).getD 0.15
    let dividend_tax := after_corp_tax * dividend_rate
    .ok (0, dividend_tax, after_corp_tax - dividend_tax,
         corporate_tax + dividend_tax)
  else if distribution_method = "Mixed" then
    let salary :=
      if salary_amount = 0 then
        (calculate_optimal_salary after_corp_tax country).recommended_salary
      else salary_amount
    if after_corp_tax < salary then .error .SalaryExceedsProfit
    else
      match salaryPersonalTax db salary country with
      | .error e => .error e
      | .ok salary_tax =>
        let after_salary := after_corp_tax - salary
        let dividend_rate := (DIVIDEND_TAX_RATES country).getD 0.15
        let dividend_tax := after_salary * dividend_rate
        .ok (salary_tax, dividend_tax,
             salary - salary_tax + after_salary - dividend_tax,
             corporate_tax + salary_tax + dividend_tax)
  else if distribution_method = "Reinvest" then
    .ok (0, 0, 0, corporate_tax)
  else
    match calculate_tax_from_db db after_corp_tax country "Individual" with
    | .error e => .error e
    | .ok personal_tax =>
      .ok (personal_tax, 0, after_corp_tax - personal_tax,
           corporate_tax + personal_tax)

/-- The Business branch of `calculate_project_taxes`
(`Logic/tax_engine.py`, lines 444-654): QBI deduction and corporate tax via
`corporate_tax_for`, the distribution arm via `distributeProfit`, then the
returned dict. -/
def businessResult (db : BracketDB) (revenue costs : ℚ) (num_people : Int)
    (country distribution_method : String) (salary_amount : ℚ) :
    Except TaxError TaxResult :=
  let gross_income := revenue - costs
  match corporate_tax_for db gross_income country with
  | .error e => .error e
  | .ok corporate_tax =>
    let after_corp_tax := gross_income - corporate_tax
    match distributeProfit db corporate_tax after_corp_tax country
        distribution_method salary_amount with
    | .error e => .error e
    | .ok (personal_tax, dividend_tax, net_income_group, total_tax) =>
      .ok
        { gross_income := gross_income
          corporate_tax := corporate_tax
          personal_tax := personal_tax
          se_tax := 0
          state_tax := 0
          dividend_tax := dividend_tax
          total_tax := total_tax
          net_income_group := net_income_group
          net_income_per_person :=
            if 0 < num_people then net_income_group / (num_people : ℚ) else 0
          effective_rate :=
            if 0 < gross_income then total_tax / gross_income * 100 else 0
          standard_deduction_used := 0
          company_retained :=
            if distribution_method = "Reinvest" then after_corp_tax else 0 }

/-- `calculate_project_taxes` of `Logic/tax_engine.py`: rejects
`num_people == 0`, dispatches on the `tax_structure` string, and rejects
anything other than "Individual" and "Business". -/
def calculate_project_taxes (db : BracketDB) (revenue costs : ℚ)
    (num_people : Int) (country tax_structure distribution_method : String)
    (salary_amount : ℚ) (state : Option String) : Except TaxError TaxResult :=
  if num_people = 0 then .error .InvalidInput
  else if tax_structure = "Individual" then
    individualResult db revenue costs num_people country state
  else if tax_structure = "Business" then
    businessResult db revenue costs num_people country distribution_method
      salary_amount
  else .error .InvalidInput

/-- Python's `max(xs, key=net_income_group)`: the first element attaining the
maximum. -/
def pickMax (h : TaxResult) (t : List TaxResult) : TaxResult :=
  t.foldl
    (fun best s =>
      if best.net_income_group < s.net_income_group then s else best) h

/-- Python's `min(xs, key=net_income_group)`: the first element attaining the
minimum. -/
def pickMin (h : TaxResult) (t : List TaxResult) : TaxResult :=
  t.foldl
    (fun best s =>
      if s.net_income_group < best.net_income_group then s else best) h

/-- `get_optimal_strategy` of `Logic/tax_engine.py`: runs the five strategies,
keeps those with positive `net_income_group`, and takes the max/min by
`net_income_group`.  Python's `max` on an empty sequence raises; that case is
modelled by `NoViableStrategy`. -/
def get_optimal_strategy (db : BracketDB) (revenue costs : ℚ)
    (num_people : Int) (country : String) (state : Option String) :
    Except TaxError OptimalResult :=
  match calculate_project_taxes db revenue costs num_people country
      "Individual" "N/A" 0 state with
  | .error e => .error e
  | .ok individual =>
    match calculate_project_taxes db revenue costs num_people country
        "Business" "Salary" 0 state with
    | .error e => .error e
    | .ok business_salary =>
      match calculate_project_taxes db revenue costs num_people country
          "Business" "Dividend" 0 state with
      | .error e => .error e
      | .ok business_dividend =>
        match calculate_project_taxes db revenue costs num_people country
            "Business" "Mixed" 0 state with
        | .error e => .error e
        | .ok business_mixed =>
          match calculate_project_taxes db revenue costs num_people country
              "Business" "Reinvest" 0 state with
          | .error e => .error e
          | .ok business_reinvest =>
            let strategies := [individual, business_salary, business_dividend,
              business_mixed, business_reinvest]
            let cashflow_strategies :=
              strategies.filter (fun s => 0 < s.net_income_group)
            match cashflow_strategies with
            | [] => .error .NoViableStrategy
            | h :: t =>
              let optimal := pickMax h t
              let worst := pickMin h t
              .ok ⟨strategies, optimal, worst,
                   optimal.net_income_group - worst.net_income_group⟩

/-- TaxBracket limits strictly ascending above `prev`, ending in a single
unbounded (`none`) limit. -/
def LimitsAscendingFrom (prev : ℚ) : List TaxBracket → Prop
  | [] => False
  | b :: rest =>
    match b.limit, rest with
    | none, [] => True
    | none, _ :: _ => False
    | some l, rest => prev < l ∧ LimitsAscendingFrom l rest

/-- TaxBracket limits strictly ascending (no constraint on the first limit),
ending in a single unbounded (`none`) limit. -/
def WellFormedBrackets : List TaxBracket → Prop
  | [] => False
  | b :: rest =>
    match b.limit, rest with
    | none, [] => True
    | none, _ :: _ => False
    | some l, rest => LimitsAscendingFrom l rest

/-- All rates non-negative. -/
def RatesNonneg (brackets : List TaxBracket) : Prop :=
  ∀ b ∈ brackets, 0 ≤ b.rate

/-- Rates non-decreasing along the list. -/
def RatesNondecreasing : List TaxBracket → Prop
  | [] => True
  | [_] => True
  | b1 :: b2 :: rest => b1.rate ≤ b2.rate ∧ RatesNondecreasing (b2 :: rest)

/-! ## Lemmas about the bracket loop -/

/-- The loop accumulator never decreases: with non-negative rates, bracket
limits ascending above `prev`, and `prev ≤ income`, the loop output is at
least the incoming accumulator. -/
theorem taxLoop_ge_acc (income : ℚ) :
    ∀ (bs : List TaxBracket) (tax prev : ℚ), (∀ b ∈ bs, 0 ≤ b.rate) →
    LimitsAscendingFrom prev bs → prev ≤ income →
    tax ≤ taxLoop income tax prev bs := by
  intro bs
  induction bs with
  | nil => intro tax prev _ _ _; simp [taxLoop]
  | cons b rest ih =>
    intro tax prev hnn hasc hpi
    obtain ⟨lim, rate⟩ := b
    have hr : (0 : ℚ) ≤ rate := hnn ⟨lim, rate⟩ (List.mem_cons_self _ _)
    cases lim with
    | none =>
      simp only [taxLoop]
      nlinarith
    | some l =>
      simp only [LimitsAscendingFrom] at hasc
      obtain ⟨hpl, hasc'⟩ := hasc
      simp only [taxLoop]
      by_cases hli : l < income
      · simp only [hli, if_true]
        have step : tax ≤ tax + (l - prev) * rate := by nlinarith
        have := ih (tax + (l - prev) * rate) l
          (fun b hb => hnn b (List.mem_cons_of_mem _ hb)) hasc' (le_of_lt hli)
        linarith
      · simp only [hli, if_false]
        nlinarith

/-- Limits ascending above some anchor are in particular ascending with no
constraint on the first limit. -/
theorem limitsAscendingFrom_wellFormed {p : ℚ} {bs : List TaxBracket}
    (h : LimitsAscendingFrom p bs) : WellFormedBrackets bs := by
  cases bs with
  | nil => exact h.elim
  | cons b rest =>
    obtain ⟨lim, rate⟩ := b
    cases lim with
    | none =>
      cases rest with
      | nil => trivial
      | cons c cs =>
        simp only [LimitsAscendingFrom] at h
    | some l =>
      simp only [LimitsAscendingFrom] at h
      exact h.2

/-- Core monotonicity of the bracket loop in the income argument. -/
theorem taxLoop_mono (i1 i2 : ℚ) (h12 : i1 ≤ i2) :
    ∀ (bs : List TaxBracket) (tax prev : ℚ), (∀ b ∈ bs, 0 ≤ b.rate) →
    WellFormedBrackets bs →
    taxLoop i1 tax prev bs ≤ taxLoop i2 tax prev bs := by
  intro bs
  induction bs with
  | nil => intro tax prev _ _; simp [taxLoop]
  | cons b rest ih =>
    intro tax prev hnn hwf
    obtain ⟨lim, rate⟩ := b
    have hr : (0 : ℚ) ≤ rate := hnn ⟨lim, rate⟩ (List.mem_cons_self _ _)
    cases lim with
    | none =>
      simp only [taxLoop]
      nlinarith
    | some l =>
      simp only [WellFormedBrackets] at hwf
      simp only [taxLoop]
      by_cases h1 : l < i1
      · have h2 : l < i2 := lt_of_lt_of_le h1 h12
        simp only [h1, h2, if_true]
        exact ih (tax + (l - prev) * rate) l
          (fun b hb => hnn b (List.mem_cons_of_mem _ hb))
          (limitsAscendingFrom_wellFormed hwf)
      · by_cases h2 : l < i2
        · simp only [h1, h2, if_true, if_false]
          have hle : tax + (i1 - prev) * rate ≤ tax + (l - prev) * rate := by
            nlinarith [le_of_not_lt h1]
          have hge : tax + (l - prev) * rate ≤
              taxLoop i2 (tax + (l - prev) * rate) l rest :=
            taxLoop_ge_acc i2 rest (tax + (l - prev) * rate) l
              (fun b hb => hnn b (List.mem_cons_of_mem _ hb)) hwf
              (le_of_lt h2)
          linarith
        · simp only [h1, h2, if_false]
          nlinarith

/-! ## Claim theorems -/

/-- C3: for every bracket list whose limits are strictly ascending with an
unbounded last limit and whose rates are non-negative and non-decreasing, the
progressive bracket tax function is monotone: `i1 < i2` implies
`tax(i1, B) ≤ tax(i2, B)`. -/
theorem calculate_tax_from_brackets_monotone (B : List TaxBracket) (i1 i2 : ℚ)
    (hwf : WellFormedBrackets B) (hnn : RatesNonneg B)
    (_hnd : RatesNondecreasing B) (h12 : i1 < i2) :
    calculate_tax_from_brackets i1 B ≤ calculate_tax_from_brackets i2 B :=
  taxLoop_mono i1 i2 (le_of_lt h12) B 0 0 hnn hwf

/-- Witness for C3 at the hard-coded UK table and incomes 10000 < 60000. -/
theorem calculate_tax_from_brackets_monotone_witness :
    WellFormedBrackets UK_TAX_BRACKETS ∧ RatesNonneg UK_TAX_BRACKETS ∧
    RatesNondecreasing UK_TAX_BRACKETS ∧
    calculate_tax_from_brackets 10000 UK_TAX_BRACKETS ≤
      calculate_tax_from_brackets 60000 UK_TAX_BRACKETS := by
  have hwf : WellFormedBrackets UK_TAX_BRACKETS := by
    simp only [WellFormedBrackets, LimitsAscendingFrom, UK_TAX_BRACKETS]
    norm_num
  have hnn : RatesNonneg UK_TAX_BRACKETS := by
    intro b hb
    simp only [UK_TAX_BRACKETS, List.mem_cons, List.not_mem_nil, or_false]
      at hb
    rcases hb with h | h | h | h <;> subst h <;> norm_num
  have hnd : RatesNondecreasing UK_TAX_BRACKETS := by
    simp only [RatesNondecreasing, UK_TAX_BRACKETS]
    norm_num
  exact ⟨hwf, hnn, hnd,
    calculate_tax_from_brackets_monotone UK_TAX_BRACKETS 10000 60000 hwf hnn
      hnd (by norm_num)⟩

/-- C4 counterexample: the hard-coded bracket helper does return a numeric
result, namely `0`, on the empty bracket list. -/
theorem empty_brackets_counterexample :
    calculate_tax_from_brackets 5 [] = 0 := rfl

/-- C4 (amended): on an empty bracket list the DB-backed path fails with
`MissingBrackets`, while the hard-coded helper performs no emptiness check and
returns `0` for every income. -/
theorem empty_brackets_behavior :
    (∀ (db : BracketDB) (income : ℚ) (country tax_type : String),
      db country tax_type = [] →
      calculate_tax_from_db db income country tax_type =
        .error .MissingBrackets) ∧
    (∀ income : ℚ, calculate_tax_from_brackets income [] = 0) := by
  constructor
  · intro db income country tax_type h
    simp [calculate_tax_from_db, h]
  · intro income
    rfl

/-- Witness for C4 at a provider with no rows. -/
theorem empty_brackets_behavior_witness :
    calculate_tax_from_db (fun _ _ => []) 5 "US" "Individual" =
      .error .MissingBrackets ∧
    calculate_tax_from_brackets 5 [] = 0 :=
  ⟨empty_brackets_behavior.1 (fun _ _ => []) 5 "US" "Individual" rfl,
   empty_brackets_behavior.2 5⟩

/-- C8: for income ≤ 0 and a bracket list whose first limit is positive, both
the hard-coded helper and the DB-backed path return `income × first rate`
(proportional to income, possibly negative, not clamped to zero). -/
theorem nonpositive_income_first_bracket (income l r : ℚ)
    (rest : List TaxBracket) (hinc : income ≤ 0) (hl : 0 < l) :
    calculate_tax_from_brackets income (⟨some l, r⟩ :: rest) = income * r ∧
    ∀ (db : BracketDB) (country tax_type : String),
      db country tax_type = ⟨some l, r⟩ :: rest →
      calculate_tax_from_db db income country tax_type = .ok (income * r) := by
  have hno : ¬ (l < income) := by linarith
  constructor
  · simp [calculate_tax_from_brackets, taxLoop, hno]
  · intro db country tax_type h
    simp [calculate_tax_from_db, h, taxLoop, hno]

/-- Witness for C8 at income −5 and the seeded US Individual first bracket. -/
theorem nonpositive_income_first_bracket_witness :
    calculate_tax_from_brackets (-5) [⟨some 10275, 0.10⟩] = -5 * 0.10 :=
  (nonpositive_income_first_bracket (-5) 10275 0.10 [] (by norm_num)
    (by norm_num)).1

/-! ## Inversion lemmas for the engine -/

/-- A successful calculation with `tax_structure = "Business"` is a successful
run of the Business branch (and `num_people ≠ 0`). -/
theorem calculate_project_taxes_business {db : BracketDB} {revenue costs : ℚ}
    {np : Int} {country method : String} {sal : ℚ} {state : Option String}
    {r : TaxResult}
    (h : calculate_project_taxes db revenue costs np country "Business" method
      sal state = .ok r) :
    businessResult db revenue costs np country method sal = .ok r := by
  unfold calculate_project_taxes at h
  split at h
  · exact Except.noConfusion h
  · simp only [String.reduceEq, reduceIte] at h
    exact h

/-- A successful calculation with `tax_structure = "Individual"` is a
successful run of the Individual branch. -/
theorem calculate_project_taxes_individual {db : BracketDB}
    {revenue costs : ℚ} {np : Int} {country dm : String} {sal : ℚ}
    {state : Option String} {r : TaxResult}
    (h : calculate_project_taxes db revenue costs np country "Individual" dm
      sal state = .ok r) :
    individualResult db revenue costs np country state = .ok r := by
  unfold calculate_project_taxes at h
  split at h
  · exact Except.noConfusion h
  · simp only [String.reduceEq, reduceIte] at h
    exact h

/-- Inversion of a successful Business-branch run into its corporate tax and
distribution tuple. -/
theorem businessResult_ok_elim {db : BracketDB} {revenue costs : ℚ} {np : Int}
    {country method : String} {sal : ℚ} {r : TaxResult}
    (h : businessResult db revenue costs np country method sal = .ok r) :
    ∃ corp pt dt nig tt,
      corporate_tax_for db (revenue - costs) country = .ok corp ∧
      distributeProfit db corp (revenue - costs - corp) country method sal =
        .ok (pt, dt, nig, tt) ∧
      r = { gross_income := revenue - costs, corporate_tax := corp,
            personal_tax := pt, se_tax := 0, state_tax := 0,
            dividend_tax := dt, total_tax := tt, net_income_group := nig,
            net_income_per_person := if 0 < np then nig / (np : ℚ) else 0,
            effective_rate :=
              if 0 < revenue - costs then tt / (revenue - costs) * 100 else 0,
            standard_deduction_used := 0,
            company_retained :=
              if method = "Reinvest" then revenue - costs - corp else 0 } := by
  simp only [businessResult] at h
  rcases hc : corporate_tax_for db (revenue - costs) country with e | corp
  · rw [hc] at h
    simp at h
  · rw [hc] at h
    dsimp only at h
    rcases hd : distributeProfit db corp (revenue - costs - corp) country
        method sal with e | ⟨pt, dt, nig, tt⟩
    · rw [hd] at h
      simp at h
    · rw [hd] at h
      dsimp only at h
      simp only [Except.ok.injEq] at h
      exact ⟨corp, pt, dt, nig, tt, rfl, hd, h.symm⟩

/-- Inversion of a successful Individual-branch run into its per-person tax
tuple. -/
theorem individualResult_ok_elim {db : BracketDB} {revenue costs : ℚ}
    {np : Int} {country : String} {state : Option String} {r : TaxResult}
    (h : individualResult db revenue costs np country state = .ok r) :
    ∃ pt se st,
      individualPerPerson db ((revenue - costs) / (np : ℚ)) country state =
        .ok (pt, se, st) ∧
      r = { gross_income := revenue - costs, corporate_tax := 0,
            personal_tax := pt * (np : ℚ), se_tax := se * (np : ℚ),
            state_tax := st * (np : ℚ), dividend_tax := 0,
            total_tax := (pt + se + st) * (np : ℚ),
            net_income_group :=
              ((revenue - costs) / (np : ℚ) - (pt + se + st)) * (np : ℚ),
            net_income_per_person :=
              (revenue - costs) / (np : ℚ) - (pt + se + st),
            effective_rate :=
              if 0 < revenue - costs then
                (pt + se + st) * (np : ℚ) / (revenue - costs) * 100
              else 0,
            standard_deduction_used :=
              if country = "UK" ∨ country = "Canada" then 0
              else (STANDARD_DEDUCTIONS country).getD 0 * (np : ℚ),
            company_retained := 0 } := by
  simp only [individualResult] at h
  rcases hp : individualPerPerson db ((revenue - costs) / (np : ℚ)) country
      state with e | ⟨pt, se, st⟩
  · rw [hp] at h
    simp at h
  · rw [hp] at h
    dsimp only at h
    simp only [Except.ok.injEq] at h
    exact ⟨pt, se, st, rfl, h.symm⟩

/-- The Reinvest arm of the distribution step: no personal or dividend tax,
no distributed net income, total tax is the corporate tax. -/
theorem distributeProfit_reinvest (db : BracketDB) (corp after sal : ℚ)
    (country : String) :
    distributeProfit db corp after country "Reinvest" sal =
      .ok (0, 0, 0, corp) := by
  simp only [distributeProfit, String.reduceEq, reduceIte]

/-- Conservation of the distribution tuple for the three distributing
methods: distributed net plus total tax is `after_corp_tax` plus the
corporate tax. -/
theorem distributeProfit_conservation {db : BracketDB} {corp after : ℚ}
    {country method : String} {sal pt dt nig tt : ℚ}
    (hm : method = "Salary" ∨ method = "Dividend" ∨ method = "Mixed")
    (hd : distributeProfit db corp after country method sal =
      .ok (pt, dt, nig, tt)) :
    nig + tt = after + corp := by
  rcases hm with hm | hm | hm <;> subst hm <;>
    simp only [distributeProfit, String.reduceEq, reduceIte] at hd
  · rcases hsp : salaryPersonalTax db after country with e | st2
    · rw [hsp] at hd
      simp at hd
    · rw [hsp] at hd
      dsimp only at hd
      simp only [Except.ok.injEq, Prod.mk.injEq] at hd
      obtain ⟨rfl, rfl, rfl, rfl⟩ := hd
      ring
  · simp only [Except.ok.injEq, Prod.mk.injEq] at hd
    obtain ⟨rfl, rfl, rfl, rfl⟩ := hd
    ring
  · set S := if sal = 0 then
        (calculate_optimal_salary after country).recommended_salary
      else sal with hS
    split at hd
    · exact Except.noConfusion hd
    · rcases hsp : salaryPersonalTax db S country with e | st2
      · rw [hsp] at hd
        simp at hd
      · rw [hsp] at hd
        dsimp only at hd
        simp only [Except.ok.injEq, Prod.mk.injEq] at hd
        obtain ⟨rfl, rfl, rfl, rfl⟩ := hd
        ring

/-- C7 counterexample: a negative `num_people` is not rejected; the engine
divides by it and returns a full result (here at `num_people = -1`). -/
theorem negative_people_counterexample :
    calculate_project_taxes seedDB 100000 20000 (-1) "US" "Individual" "N/A" 0
      none =
    .ok { gross_income := 80000, corporate_tax := 0, personal_tax := 0,
          se_tax := 282591/25, state_tax := 0, dividend_tax := 0,
          total_tax := 282591/25, net_income_group := 1717409/25,
          net_income_per_person := -1717409/25,
          effective_rate := 282591/20000, standard_deduction_used := -13850,
          company_retained := 0 } := by
  norm_num [calculate_project_taxes, individualResult, individualPerPerson,
    apply_standard_deduction, STANDARD_DEDUCTIONS, calculate_tax_from_db,
    seedDB, SEED_US_INDIVIDUAL, taxLoop, calculate_self_employment_tax,
    SE_social_security, SE_ss_wage_base, SE_medicare, SE_additional_medicare,
    SE_additional_medicare_threshold, min_def, max_def]
  simp only [String.reduceEq, reduceIte]
  norm_num

/-- C7 (amended): `num_people = 0` fails with `InvalidInput` regardless of tax
structure and distribution method; negative `num_people` is not rejected. -/
theorem zero_people_invalid_input (db : BracketDB) (revenue costs : ℚ)
    (country tax_structure distribution_method : String) (sal : ℚ)
    (state : Option String) :
    calculate_project_taxes db revenue costs 0 country tax_structure
      distribution_method sal state = .error .InvalidInput := by
  simp [calculate_project_taxes]

/-- C6: every successful Business + Reinvest calculation has zero personal and
dividend tax, net_income_group exactly 0, total_tax equal to the corporate tax
alone, and company_retained equal to gross − corporate tax. -/
theorem reinvest_result (db : BracketDB) (revenue costs : ℚ) (np : Int)
    (country : String) (sal : ℚ) (state : Option String) (r : TaxResult)
    (h : calculate_project_taxes db revenue costs np country "Business"
      "Reinvest" sal state = .ok r) :
    r.personal_tax = 0 ∧ r.dividend_tax = 0 ∧ r.net_income_group = 0 ∧
    r.total_tax = r.corporate_tax ∧
    r.company_retained = r.gross_income - r.corporate_tax := by
  obtain ⟨corp, pt, dt, nig, tt, hc, hd, hr⟩ :=
    businessResult_ok_elim (calculate_project_taxes_business h)
  rw [distributeProfit_reinvest] at hd
  simp only [Except.ok.injEq, Prod.mk.injEq] at hd
  obtain ⟨rfl, rfl, rfl, rfl⟩ := hd
  subst hr
  simp

/-- Witness for C6 at the seeded US data, revenue 100000, costs 20000,
2 people. -/
theorem reinvest_result_witness :
    ∃ r, calculate_project_taxes seedDB 100000 20000 2 "US" "Business"
        "Reinvest" 0 none = .ok r ∧
      r.personal_tax = 0 ∧ r.dividend_tax = 0 ∧ r.net_income_group = 0 ∧
      r.total_tax = r.corporate_tax ∧
      r.company_retained = r.gross_income - r.corporate_tax := by
  have h : calculate_project_taxes seedDB 100000 20000 2 "US" "Business"
      "Reinvest" 0 none =
      .ok { gross_income := 80000, corporate_tax := 13440, personal_tax := 0,
            se_tax := 0, state_tax := 0, dividend_tax := 0,
            total_tax := 13440, net_income_group := 0,
            net_income_per_person := 0, effective_rate := 84/5,
            standard_deduction_used := 0, company_retained := 66560 } := by
    norm_num [calculate_project_taxes, businessResult, distributeProfit,
      corporate_tax_for, apply_qbi_deduction, QBI_DEDUCTION_RATE,
      calculate_tax_from_db, seedDB, taxLoop]
    simp only [String.reduceEq, reduceIte]
    norm_num
  exact ⟨_, h, reinvest_result seedDB 100000 20000 2 "US" 0 none _ h⟩

/-- C2: every successful Business calculation with distribution method
Salary, Dividend or Mixed satisfies the conservation law
`net_income_group + total_tax = gross_income`, with
`gross_income = revenue − costs`. -/
theorem business_conservation (db : BracketDB) (revenue costs : ℚ) (np : Int)
    (country method : String) (sal : ℚ) (state : Option String) (r : TaxResult)
    (hm : method = "Salary" ∨ method = "Dividend" ∨ method = "Mixed")
    (h : calculate_project_taxes db revenue costs np country "Business" method
      sal state = .ok r) :
    r.net_income_group + r.total_tax = r.gross_income ∧
    r.gross_income = revenue - costs := by
  obtain ⟨corp, pt, dt, nig, tt, hc, hd, hr⟩ :=
    businessResult_ok_elim (calculate_project_taxes_business h)
  subst hr
  have hcons := distributeProfit_conservation hm hd
  constructor
  · dsimp only
    linarith
  · rfl

/-- Witness for C2 at the seeded US data, Business + Dividend, revenue
100000, costs 20000, 2 people. -/
theorem business_conservation_witness :
    ∃ r, calculate_project_taxes seedDB 100000 20000 2 "US" "Business"
        "Dividend" 0 none = .ok r ∧
      r.net_income_group + r.total_tax = r.gross_income ∧
      r.gross_income = 100000 - 20000 := by
  have h : calculate_project_taxes seedDB 100000 20000 2 "US" "Business"
      "Dividend" 0 none =
      .ok { gross_income := 80000, corporate_tax := 13440, personal_tax := 0,
            se_tax := 0, state_tax := 0, dividend_tax := 9984,
            total_tax := 23424, net_income_group := 56576,
            net_income_per_person := 28288, effective_rate := 732/25,
            standard_deduction_used := 0, company_retained := 0 } := by
    norm_num [calculate_project_taxes, businessResult, distributeProfit,
      corporate_tax_for, apply_qbi_deduction, QBI_DEDUCTION_RATE,
      calculate_tax_from_db, seedDB, taxLoop, DIVIDEND_TAX_RATES]
    simp only [String.reduceEq, reduceIte]
    norm_num
  exact ⟨_, h, business_conservation seedDB 100000 20000 2 "US" "Dividend" 0
    none _ (Or.inr (Or.inl rfl)) h⟩

/-- For a non-flat-bracket jurisdiction (neither UK nor Canada) the per-person
tuple applies only the country standard deduction before personal tax — the
state parameter is never passed to `apply_standard_deduction` — and computes
self-employment tax on the undeduced income. -/
theorem individualPerPerson_not_flat {db : BracketDB} {ii : ℚ}
    {country : String} {state : Option String}
    (huk : country ≠ "UK") (hca : country ≠ "Canada") :
    individualPerPerson db ii country state =
      match calculate_tax_from_db db
          (max 0 (ii - (STANDARD_DEDUCTIONS country).getD 0)) country
          "Individual" with
      | .error e => .error e
      | .ok pt =>
        .ok (pt, (calculate_self_employment_tax ii country).total_se_tax,
          match state with
          | some s =>
            if country = "US" ∧ s ≠ "" then calculate_state_tax ii s else 0
          | none => 0) := by
  unfold individualPerPerson
  rw [if_neg huk, if_neg hca]
  rfl

/-- C9 counterexample: Individual, US with state CA, revenue 100000, one
person.  The engine's personal tax is computed without the CA state standard
deduction, so it differs from the state-deduction-inclusive figure the claim
prescribes. -/
theorem individual_state_deduction_counterexample :
    ∃ r, calculate_project_taxes seedDB 100000 0 1 "US" "Individual" "N/A" 0
        (some "CA") = .ok r ∧
      r.personal_tax ≠
        calculate_tax_from_brackets (max 0 (100000 - 13850 - 5202))
          SEED_US_INDIVIDUAL := by
  have h : calculate_project_taxes seedDB 100000 0 1 "US" "Individual" "N/A" 0
      (some "CA") =
      .ok { gross_income := 100000, corporate_tax := 0,
            personal_tax := 14570, se_tax := 282591/20,
            state_tax := 242139/40, dividend_tax := 0,
            total_tax := 1390121/40, net_income_group := 2609879/40,
            net_income_per_person := 2609879/40,
            effective_rate := 1390121/40000,
            standard_deduction_used := 13850, company_retained := 0 } := by
    norm_num [calculate_project_taxes, individualResult, individualPerPerson,
      apply_standard_deduction, STANDARD_DEDUCTIONS, calculate_tax_from_db,
      seedDB, SEED_US_INDIVIDUAL, taxLoop, calculate_self_employment_tax,
      SE_social_security, SE_ss_wage_base, SE_medicare, SE_additional_medicare,
      SE_additional_medicare_threshold, calculate_state_tax, STATE_TAX_RATES,
      CA_STATE_BRACKETS, calculate_tax_from_brackets, min_def, max_def]
    simp only [String.reduceEq, reduceIte]
    norm_num
  refine ⟨_, h, ?_⟩
  norm_num [calculate_tax_from_brackets, taxLoop, SEED_US_INDIVIDUAL, max_def]

/-- C9 (amended): for every successful Individual calculation in a
non-flat-bracket jurisdiction, the personal tax is the DB bracket tax on
`max(0, per_person_income − standard_deduction(country))` — the state
standard deduction is not included even when a recognized US state is
supplied — and self-employment tax is computed on the undeduced per-person
income. -/
theorem individual_deduction_behavior (db : BracketDB) (revenue costs : ℚ)
    (np : Int) (country dm : String) (sal : ℚ) (state : Option String)
    (r : TaxResult) (huk : country ≠ "UK") (hca : country ≠ "Canada")
    (h : calculate_project_taxes db revenue costs np country "Individual" dm
      sal state = .ok r) :
    ∃ pt, calculate_tax_from_db db
        (max 0 ((revenue - costs) / (np : ℚ) -
          (STANDARD_DEDUCTIONS country).getD 0)) country "Individual" =
        .ok pt ∧
      r.personal_tax = pt * (np : ℚ) ∧
      r.se_tax = (calculate_self_employment_tax
        ((revenue - costs) / (np : ℚ)) country).total_se_tax * (np : ℚ) := by
  obtain ⟨pt, se, st, hp, hr⟩ :=
    individualResult_ok_elim (calculate_project_taxes_individual h)
  rw [individualPerPerson_not_flat huk hca] at hp
  subst hr
  rcases hdb : calculate_tax_from_db db
      (max 0 ((revenue - costs) / (np : ℚ) -
        (STANDARD_DEDUCTIONS country).getD 0)) country "Individual"
    with e | pt2
  · rw [hdb] at hp
    simp at hp
  · rw [hdb] at hp
    dsimp only at hp
    simp only [Except.ok.injEq, Prod.mk.injEq] at hp
    obtain ⟨h1, h2, h3⟩ := hp
    exact ⟨pt2, rfl, by dsimp only; rw [h1], by dsimp only; rw [h2]⟩

/-- The fallback arm of the distribution step for an unrecognized method:
tax the whole `after_corp_tax` through the DB Individual brackets, no
standard deduction, no UK/Canada handling. -/
theorem distributeProfit_fallback {db : BracketDB} {corp after sal : ℚ}
    {country method : String}
    (h1 : method ≠ "Salary") (h2 : method ≠ "Dividend") (h3 : method ≠ "Mixed")
    (h4 : method ≠ "Reinvest") :
    distributeProfit db corp after country method sal =
      match calculate_tax_from_db db after country "Individual" with
      | .error e => .error e
      | .ok pt => .ok (pt, 0, after - pt, corp + pt) := by
  unfold distributeProfit
  rw [if_neg h1, if_neg h2, if_neg h3, if_neg h4]

/-- C10 counterexample: for US Business, revenue 100000, costs 20000, the
unrecognized method `"N/A"` does not reproduce the Salary branch — the
fallback skips the standard deduction, so the personal tax differs. -/
theorem unrecognized_method_counterexample :
    ∃ r1 r2,
      calculate_project_taxes seedDB 100000 20000 2 "US" "Business" "N/A" 0
        none = .ok r1 ∧
      calculate_project_taxes seedDB 100000 20000 2 "US" "Business" "Salary" 0
        none = .ok r2 ∧
      r1.personal_tax ≠ r2.personal_tax := by
  have hA : calculate_project_taxes seedDB 100000 20000 2 "US" "Business"
      "N/A" 0 none =
      .ok { gross_income := 80000, corporate_tax := 13440,
            personal_tax := 51301/5, se_tax := 0, state_tax := 0,
            dividend_tax := 0, total_tax := 118501/5,
            net_income_group := 281499/5, net_income_per_person := 281499/10,
            effective_rate := 118501/4000, standard_deduction_used := 0,
            company_retained := 0 } := by
    norm_num [calculate_project_taxes, businessResult, distributeProfit,
      corporate_tax_for, apply_qbi_deduction, QBI_DEDUCTION_RATE,
      calculate_tax_from_db, seedDB, SEED_US_INDIVIDUAL, taxLoop]
    simp only [String.reduceEq, reduceIte]
    norm_num
  have hS : calculate_project_taxes seedDB 100000 20000 2 "US" "Business"
      "Salary" 0 none =
      .ok { gross_income := 80000, corporate_tax := 13440,
            personal_tax := 36066/5, se_tax := 0, state_tax := 0,
            dividend_tax := 0, total_tax := 103266/5,
            net_income_group := 296734/5, net_income_per_person := 148367/5,
            effective_rate := 51633/2000, standard_deduction_used := 0,
            company_retained := 0 } := by
    norm_num [calculate_project_taxes, businessResult, distributeProfit,
      salaryPersonalTax, apply_standard_deduction, STANDARD_DEDUCTIONS,
      corporate_tax_for, apply_qbi_deduction, QBI_DEDUCTION_RATE,
      calculate_tax_from_db, seedDB, SEED_US_INDIVIDUAL, taxLoop, min_def,
      max_def]
    simp only [String.reduceEq, reduceIte]
    norm_num
  refine ⟨_, _, hA, hS, ?_⟩
  norm_num

/-- C10 (amended): for every successful Business calculation whose
distribution method is none of Salary/Dividend/Mixed/Reinvest, the result
taxes the entire after-corporate-tax profit through the DB Individual
brackets with no standard deduction (and no UK/Canada special-casing); this
generally differs from the Salary branch, e.g. for US. -/
theorem unrecognized_method_fallback (db : BracketDB) (revenue costs : ℚ)
    (np : Int) (country method : String) (sal : ℚ) (state : Option String)
    (r : TaxResult)
    (h1 : method ≠ "Salary") (h2 : method ≠ "Dividend")
    (h3 : method ≠ "Mixed") (h4 : method ≠ "Reinvest")
    (h : calculate_project_taxes db revenue costs np country "Business" method
      sal state = .ok r) :
    ∃ corp pt, corporate_tax_for db (revenue - costs) country = .ok corp ∧
      calculate_tax_from_db db (revenue - costs - corp) country "Individual" =
        .ok pt ∧
      r.personal_tax = pt ∧ r.dividend_tax = 0 ∧
      r.net_income_group = revenue - costs - corp - pt ∧
      r.total_tax = corp + pt := by
  obtain ⟨corp, pt, dt, nig, tt, hc, hd, hr⟩ :=
    businessResult_ok_elim (calculate_project_taxes_business h)
  rw [distributeProfit_fallback h1 h2 h3 h4] at hd
  subst hr
  rcases hdb : calculate_tax_from_db db (revenue - costs - corp) country
      "Individual" with e | pt2
  · rw [hdb] at hd
    simp at hd
  · rw [hdb] at hd
    dsimp only at hd
    simp only [Except.ok.injEq, Prod.mk.injEq] at hd
    obtain ⟨hp1, hp2, hp3, hp4⟩ := hd
    exact ⟨corp, pt2, hc, hdb, by dsimp only; rw [hp1],
      by dsimp only; rw [hp2], by dsimp only; rw [hp3],
      by dsimp only; rw [hp4]⟩

/-- The salary-tax helper can only fail with `MissingBrackets`, never with
`SalaryExceedsProfit`. -/
theorem salaryPersonalTax_no_sep (db : BracketDB) (amount : ℚ)
    (country : String) :
    salaryPersonalTax db amount country ≠ .error .SalaryExceedsProfit := by
  unfold salaryPersonalTax
  split
  · simp
  · split
    · simp
    · unfold calculate_tax_from_db
      split <;> simp

/-- With `num_people ≠ 0` the Business entry point is exactly the Business
branch. -/
theorem calculate_project_taxes_business_eq (db : BracketDB)
    (revenue costs : ℚ) (np : Int) (country method : String) (sal : ℚ)
    (state : Option String) (hnp : np ≠ 0) :
    calculate_project_taxes db revenue costs np country "Business" method sal
      state = businessResult db revenue costs np country method sal := by
  unfold calculate_project_taxes
  rw [if_neg hnp]
  simp only [String.reduceEq, reduceIte]

/-- The Business branch, rewritten through a known corporate tax. -/
theorem businessResult_eq (db : BracketDB) (revenue costs : ℚ) (np : Int)
    (country method : String) (sal corp : ℚ)
    (hc : corporate_tax_for db (revenue - costs) country = .ok corp) :
    businessResult db revenue costs np country method sal =
      match distributeProfit db corp (revenue - costs - corp) country method
          sal with
      | .error e => .error e
      | .ok (pt, dt, nig, tt) =>
        .ok { gross_income := revenue - costs, corporate_tax := corp,
              personal_tax := pt, se_tax := 0, state_tax := 0,
              dividend_tax := dt, total_tax := tt, net_income_group := nig,
              net_income_per_person := if 0 < np then nig / (np : ℚ) else 0,
              effective_rate :=
                if 0 < revenue - costs then tt / (revenue - costs) * 100
                else 0,
              standard_deduction_used := 0,
              company_retained :=
                if method = "Reinvest" then revenue - costs - corp else 0 } := by
  simp only [businessResult]
  rw [hc]

/-- Mixed with a zero salary substitutes the recommended salary: the call
with salary 0 computes exactly what the call with the recommended salary
computes. -/
theorem distributeProfit_mixed_subst (db : BracketDB) (corp after : ℚ)
    (country : String) :
    distributeProfit db corp after country "Mixed" 0 =
      distributeProfit db corp after country "Mixed"
        (calculate_optimal_salary after country).recommended_salary := by
  unfold distributeProfit
  simp only [String.reduceEq, reduceIte]
  by_cases h : (calculate_optimal_salary after country).recommended_salary = 0
  · simp [h]
  · simp [h]

/-- The recommended salary never exceeds `after_corp_tax` for US or Spain,
nor for any jurisdiction when `after_corp_tax ≥ 0`. -/
theorem recommended_salary_le (after : ℚ) (country : String)
    (hok : country = "US" ∨ country = "Spain" ∨ 0 ≤ after) :
    (calculate_optimal_salary after country).recommended_salary ≤ after := by
  by_cases hus : country = "US"
  · subst hus
    unfold calculate_optimal_salary
    simp only [String.reduceEq, reduceIte]
    exact min_le_left _ _
  · by_cases hsp : country = "Spain"
    · subst hsp
      unfold calculate_optimal_salary
      simp only [String.reduceEq, reduceIte]
      exact min_le_left _ _
    · unfold calculate_optimal_salary
      rw [if_neg hus, if_neg hsp]
      dsimp only
      rcases hok with hc | hc | hc
      · exact absurd hc hus
      · exact absurd hc hsp
      · nlinarith

/-- Mixed with salary 0 never fails with `SalaryExceedsProfit` when the
recommended split fits (US, Spain, or non-negative after-tax profit). -/
theorem distributeProfit_mixed_zero_no_sep (db : BracketDB) (corp after : ℚ)
    (country : String)
    (hok : country = "US" ∨ country = "Spain" ∨ 0 ≤ after) :
    distributeProfit db corp after country "Mixed" 0 ≠
      .error .SalaryExceedsProfit := by
  unfold distributeProfit
  simp only [String.reduceEq, reduceIte, eq_self_iff_true, if_true]
  rw [if_neg (not_lt.mpr (recommended_salary_le after country hok))]
  rcases hsp2 : salaryPersonalTax db
      (calculate_optimal_salary after country).recommended_salary country
    with e | st
  · intro hbad
    dsimp only at hbad
    injection hbad with he
    exact salaryPersonalTax_no_sep db
      (calculate_optimal_salary after country).recommended_salary country
      (by rw [hsp2, he])
  · simp

/-- Mixed with a given non-zero salary exceeding `after_corp_tax` fails with
`SalaryExceedsProfit`. -/
theorem distributeProfit_mixed_oversized (db : BracketDB) (corp after s : ℚ)
    (country : String) (hs : s ≠ 0) (hlt : after < s) :
    distributeProfit db corp after country "Mixed" s =
      .error .SalaryExceedsProfit := by
  unfold distributeProfit
  simp only [String.reduceEq, reduceIte]
  rw [if_neg hs, if_pos hlt]

/-- C5 counterexample: Business + Mixed with salary_amount = 0 does raise —
for the UK with a negative profit, the auto 50/50 split exceeds
`after_corp_tax` and the engine fails with `SalaryExceedsProfit`. -/
theorem mixed_auto_split_counterexample :
    calculate_project_taxes seedDB 0 100 1 "UK" "Business" "Mixed" 0 none =
      .error .SalaryExceedsProfit := by
  norm_num [calculate_project_taxes, businessResult, distributeProfit,
    corporate_tax_for, apply_qbi_deduction, UK_CORPORATE_TAX_RATE,
    calculate_optimal_salary]
  simp only [String.reduceEq, reduceIte]
  norm_num

/-- C5 (amended): for Business + Mixed, a zero salary_amount substitutes the
auto-optimal split (US: min(after, 44725 + 13850); Spain: min(after,
20200 + 5550); otherwise an even 50/50 split); the substituted call computes
exactly the calculation at the recommended salary and never fails with
`SalaryExceedsProfit` when the split fits (always for US/Spain, and whenever
after_corp_tax ≥ 0 elsewhere — it can fail for a negative after_corp_tax in
other jurisdictions); a given non-zero salary_amount exceeding after_corp_tax
fails with `SalaryExceedsProfit`. -/
theorem mixed_salary_handling (db : BracketDB) (revenue costs : ℚ) (np : Int)
    (country : String) (state : Option String) (corp : ℚ)
    (hnp : np ≠ 0)
    (hc : corporate_tax_for db (revenue - costs) country = .ok corp) :
    ((calculate_optimal_salary (revenue - costs - corp) "US").recommended_salary
        = min (revenue - costs - corp) (44725 + 13850)) ∧
    ((calculate_optimal_salary (revenue - costs - corp)
        "Spain").recommended_salary
        = min (revenue - costs - corp) (20200 + 5550)) ∧
    (country ≠ "US" → country ≠ "Spain" →
      (calculate_optimal_salary (revenue - costs - corp)
        country).recommended_salary = (revenue - costs - corp) * 0.5) ∧
    (calculate_project_taxes db revenue costs np country "Business" "Mixed" 0
        state =
      calculate_project_taxes db revenue costs np country "Business" "Mixed"
        (calculate_optimal_salary (revenue - costs - corp)
          country).recommended_salary state) ∧
    ((country = "US" ∨ country = "Spain" ∨ 0 ≤ revenue - costs - corp) →
      calculate_project_taxes db revenue costs np country "Business" "Mixed" 0
        state ≠ .error .SalaryExceedsProfit) ∧
    (∀ s, s ≠ 0 → revenue - costs - corp < s →
      calculate_project_taxes db revenue costs np country "Business" "Mixed" s
        state = .error .SalaryExceedsProfit) := by
  refine ⟨?_, ?_, ?_, ?_, ?_, ?_⟩
  · unfold calculate_optimal_salary
    simp [STANDARD_DEDUCTIONS]
  · unfold calculate_optimal_salary
    simp [STANDARD_DEDUCTIONS]
  · intro hus hsp
    unfold calculate_optimal_salary
    rw [if_neg hus, if_neg hsp]
  · rw [calculate_project_taxes_business_eq db revenue costs np country
      "Mixed" 0 state hnp,
      calculate_project_taxes_business_eq db revenue costs np country
      "Mixed" _ state hnp,
      businessResult_eq db revenue costs np country "Mixed" 0 corp hc,
      businessResult_eq db revenue costs np country "Mixed" _ corp hc,
      distributeProfit_mixed_subst]
  · intro hok hbad
    rw [calculate_project_taxes_business_eq db revenue costs np country
      "Mixed" 0 state hnp,
      businessResult_eq db revenue costs np country "Mixed" 0 corp hc] at hbad
    rcases hd : distributeProfit db corp (revenue - costs - corp) country
        "Mixed" 0 with e | ⟨pt, dt, nig, tt⟩
    · rw [hd] at hbad
      dsimp only at hbad
      injection hbad with he
      exact distributeProfit_mixed_zero_no_sep db corp (revenue - costs - corp)
        country hok (by rw [hd, he])
    · rw [hd] at hbad
      exact Except.noConfusion hbad
  · intro s hs hlt
    rw [calculate_project_taxes_business_eq db revenue costs np country
      "Mixed" s state hnp,
      businessResult_eq db revenue costs np country "Mixed" s corp hc,
      distributeProfit_mixed_oversized db corp (revenue - costs - corp) s
        country hs hlt]

/-- Witness for C5: US, revenue 100000, costs 20000, 2 people, explicit
salary 90000 exceeding the after-tax profit 66560 raises
`SalaryExceedsProfit`. -/
theorem mixed_salary_handling_witness :
    calculate_project_taxes seedDB 100000 20000 2 "US" "Business" "Mixed"
      90000 none = .error .SalaryExceedsProfit :=
  (mixed_salary_handling seedDB 100000 20000 2 "US" none 13440 (by norm_num)
    (by
      norm_num [corporate_tax_for, apply_qbi_deduction, QBI_DEDUCTION_RATE,
        calculate_tax_from_db, seedDB, taxLoop]
      simp only [String.reduceEq, reduceIte]
      norm_num)).2.2.2.2.2 90000 (by norm_num) (by norm_num)

/-- Unfolding `pickMax` one step. -/
theorem pickMax_cons (h x : TaxResult) (t : List TaxResult) :
    pickMax h (x :: t) =
      pickMax (if h.net_income_group < x.net_income_group then x else h) t :=
  rfl

/-- Unfolding `pickMin` one step. -/
theorem pickMin_cons (h x : TaxResult) (t : List TaxResult) :
    pickMin h (x :: t) =
      pickMin (if x.net_income_group < h.net_income_group then x else h) t :=
  rfl

/-- The maximum by net income is one of the candidates. -/
theorem pickMax_mem (h : TaxResult) (t : List TaxResult) :
    pickMax h t ∈ h :: t := by
  induction t generalizing h with
  | nil => simp [pickMax]
  | cons x t ih =>
    rw [pickMax_cons]
    have hmem := ih (if h.net_income_group < x.net_income_group then x else h)
    rw [List.mem_cons] at hmem
    rcases hmem with heq | hmem
    · rw [heq]
      by_cases hc : h.net_income_group < x.net_income_group
      · simp [hc]
      · simp [hc]
    · exact List.mem_cons_of_mem _ (List.mem_cons_of_mem _ hmem)

/-- The minimum by net income is one of the candidates. -/
theorem pickMin_mem (h : TaxResult) (t : List TaxResult) :
    pickMin h t ∈ h :: t := by
  induction t generalizing h with
  | nil => simp [pickMin]
  | cons x t ih =>
    rw [pickMin_cons]
    have hmem := ih (if x.net_income_group < h.net_income_group then x else h)
    rw [List.mem_cons] at hmem
    rcases hmem with heq | hmem
    · rw [heq]
      by_cases hc : x.net_income_group < h.net_income_group
      · simp [hc]
      · simp [hc]
    · exact List.mem_cons_of_mem _ (List.mem_cons_of_mem _ hmem)

/-- Every candidate's net income is at most the maximum's. -/
theorem pickMax_ge (h : TaxResult) (t : List TaxResult) :
    ∀ s ∈ h :: t, s.net_income_group ≤ (pickMax h t).net_income_group := by
  induction t generalizing h with
  | nil =>
    intro s hs
    rw [List.mem_singleton] at hs
    subst hs
    exact le_refl _
  | cons x t ih =>
    intro s hs
    rw [pickMax_cons]
    have hhle : h.net_income_group ≤
        (if h.net_income_group < x.net_income_group then x
         else h).net_income_group := by
      by_cases hc : h.net_income_group < x.net_income_group
      · rw [if_pos hc]
        exact le_of_lt hc
      · rw [if_neg hc]
    have hxle : x.net_income_group ≤
        (if h.net_income_group < x.net_income_group then x
         else h).net_income_group := by
      by_cases hc : h.net_income_group < x.net_income_group
      · rw [if_pos hc]
      · rw [if_neg hc]
        exact le_of_not_lt hc
    have hstep := ih (if h.net_income_group < x.net_income_group then x else h)
      _ (List.mem_cons_self _ _)
    rcases List.mem_cons.mp hs with rfl | hs'
    · exact le_trans hhle hstep
    · rcases List.mem_cons.mp hs' with rfl | hs''
      · exact le_trans hxle hstep
      · exact ih _ s (List.mem_cons_of_mem _ hs'')

/-- Every candidate's net income is at least the minimum's. -/
theorem pickMin_le (h : TaxResult) (t : List TaxResult) :
    ∀ s ∈ h :: t, (pickMin h t).net_income_group ≤ s.net_income_group := by
  induction t generalizing h with
  | nil =>
    intro s hs
    rw [List.mem_singleton] at hs
    subst hs
    exact le_refl _
  | cons x t ih =>
    intro s hs
    rw [pickMin_cons]
    have hhle : (if x.net_income_group < h.net_income_group then x
         else h).net_income_group ≤ h.net_income_group := by
      by_cases hc : x.net_income_group < h.net_income_group
      · rw [if_pos hc]
        exact le_of_lt hc
      · rw [if_neg hc]
    have hxle : (if x.net_income_group < h.net_income_group then x
         else h).net_income_group ≤ x.net_income_group := by
      by_cases hc : x.net_income_group < h.net_income_group
      · rw [if_pos hc]
      · rw [if_neg hc]
        exact le_of_not_lt hc
    have hstep := ih (if x.net_income_group < h.net_income_group then x else h)
      _ (List.mem_cons_self _ _)
    rcases List.mem_cons.mp hs with rfl | hs'
    · exact le_trans hstep hhle
    · rcases List.mem_cons.mp hs' with rfl | hs''
      · exact le_trans hstep hxle
      · exact ih _ s (List.mem_cons_of_mem _ hs'')

/-- C1: when all five enumerated strategies succeed and at least one has
positive net income, `get_optimal_strategy` returns an optimal whose
net_income_group dominates every positive-net strategy, a worst attaining the
minimum over those strategies, and savings equal to their difference. -/
theorem get_optimal_strategy_correct (db : BracketDB) (revenue costs : ℚ)
    (np : Int) (country : String) (state : Option String)
    (individual business_salary business_dividend business_mixed
      business_reinvest : TaxResult)
    (_hnp : 1 ≤ np)
    (h1 : calculate_project_taxes db revenue costs np country "Individual"
      "N/A" 0 state = .ok individual)
    (h2 : calculate_project_taxes db revenue costs np country "Business"
      "Salary" 0 state = .ok business_salary)
    (h3 : calculate_project_taxes db revenue costs np country "Business"
      "Dividend" 0 state = .ok business_dividend)
    (h4 : calculate_project_taxes db revenue costs np country "Business"
      "Mixed" 0 state = .ok business_mixed)
    (h5 : calculate_project_taxes db revenue costs np country "Business"
      "Reinvest" 0 state = .ok business_reinvest)
    (hpos : 0 < individual.net_income_group ∨
      0 < business_salary.net_income_group ∨
      0 < business_dividend.net_income_group ∨
      0 < business_mixed.net_income_group ∨
      0 < business_reinvest.net_income_group) :
    ∃ res, get_optimal_strategy db revenue costs np country state = .ok res ∧
      res.optimal ∈ [individual, business_salary, business_dividend,
        business_mixed, business_reinvest] ∧
      0 < res.optimal.net_income_group ∧
      (∀ s ∈ [individual, business_salary, business_dividend, business_mixed,
        business_reinvest], 0 < s.net_income_group →
        s.net_income_group ≤ res.optimal.net_income_group) ∧
      res.worst ∈ [individual, business_salary, business_dividend,
        business_mixed, business_reinvest] ∧
      0 < res.worst.net_income_group ∧
      (∀ s ∈ [individual, business_salary, business_dividend, business_mixed,
        business_reinvest], 0 < s.net_income_group →
        res.worst.net_income_group ≤ s.net_income_group) ∧
      res.savings = res.optimal.net_income_group -
        res.worst.net_income_group := by
  have hex : ∃ s, s ∈ [individual, business_salary, business_dividend,
      business_mixed, business_reinvest] ∧ 0 < s.net_income_group := by
    rcases hpos with hp | hp | hp | hp | hp
    · exact ⟨individual, by simp, hp⟩
    · exact ⟨business_salary, by simp, hp⟩
    · exact ⟨business_dividend, by simp, hp⟩
    · exact ⟨business_mixed, by simp, hp⟩
    · exact ⟨business_reinvest, by simp, hp⟩
  unfold get_optimal_strategy
  rw [h1, h2, h3, h4, h5]
  dsimp only
  cases hF : List.filter (fun s => decide (0 < s.net_income_group))
      [individual, business_salary, business_dividend, business_mixed,
       business_reinvest] with
  | nil =>
    exfalso
    obtain ⟨s, hsL, hsp⟩ := hex
    have : s ∈ List.filter (fun s => decide (0 < s.net_income_group))
        [individual, business_salary, business_dividend, business_mixed,
         business_reinvest] :=
      List.mem_filter.mpr ⟨hsL, by simpa using hsp⟩
    rw [hF] at this
    exact List.not_mem_nil s this
  | cons hd tl =>
    have hfmem : ∀ {s : TaxResult}, s ∈ hd :: tl →
        s ∈ [individual, business_salary, business_dividend, business_mixed,
          business_reinvest] ∧ 0 < s.net_income_group := by
      intro s hs
      rw [← hF] at hs
      have hm := List.mem_filter.mp hs
      exact ⟨hm.1, by simpa using hm.2⟩
    have hmemf : ∀ {s : TaxResult},
        s ∈ [individual, business_salary, business_dividend, business_mixed,
          business_reinvest] → 0 < s.net_income_group → s ∈ hd :: tl := by
      intro s hs hp
      rw [← hF]
      exact List.mem_filter.mpr ⟨hs, by simpa using hp⟩
    refine ⟨_, rfl, (hfmem (pickMax_mem hd tl)).1, (hfmem (pickMax_mem hd tl)).2,
      ?_, (hfmem (pickMin_mem hd tl)).1, (hfmem (pickMin_mem hd tl)).2, ?_, rfl⟩
    · intro s hs hp
      exact pickMax_ge hd tl s (hmemf hs hp)
    · intro s hs hp
      exact pickMin_le hd tl s (hmemf hs hp)

/-- Witness for C1 at the seeded US data, revenue 100000, costs 20000,
2 people: all five strategies succeed and the optimal search returns with
savings equal to the optimal-minus-worst difference. -/
theorem get_optimal_strategy_correct_witness :
    ∃ res, get_optimal_strategy seedDB 100000 20000 2 "US" none = .ok res ∧
      res.savings = res.optimal.net_income_group -
        res.worst.net_income_group := by
  have h1 : calculate_project_taxes seedDB 100000 20000 2 "US" "Individual"
      "N/A" 0 none =
      .ok { gross_income := 80000, corporate_tax := 0, personal_tax := 5865,
            se_tax := 282591/25, state_tax := 0, dividend_tax := 0,
            total_tax := 429216/25, net_income_group := 1570784/25,
            net_income_per_person := 785392/25, effective_rate := 13413/625,
            standard_deduction_used := 27700, company_retained := 0 } := by
    norm_num [calculate_project_taxes, individualResult, individualPerPerson,
      apply_standard_deduction, STANDARD_DEDUCTIONS, calculate_tax_from_db,
      seedDB, SEED_US_INDIVIDUAL, taxLoop, calculate_self_employment_tax,
      SE_social_security, SE_ss_wage_base, SE_medicare, SE_additional_medicare,
      SE_additional_medicare_threshold, min_def, max_def]
    simp only [String.reduceEq, reduceIte]
    norm_num
  have h2 : calculate_project_taxes seedDB 100000 20000 2 "US" "Business"
      "Salary" 0 none =
      .ok { gross_income := 80000, corporate_tax := 13440,
            personal_tax := 36066/5, se_tax := 0, state_tax := 0,
            dividend_tax := 0, total_tax := 103266/5,
            net_income_group := 296734/5, net_income_per_person := 148367/5,
            effective_rate := 51633/2000, standard_deduction_used := 0,
            company_retained := 0 } := by
    norm_num [calculate_project_taxes, businessResult, distributeProfit,
      salaryPersonalTax, apply_standard_deduction, STANDARD_DEDUCTIONS,
      corporate_tax_for, apply_qbi_deduction, QBI_DEDUCTION_RATE,
      calculate_tax_from_db, seedDB, SEED_US_INDIVIDUAL, taxLoop, min_def,
      max_def]
    simp only [String.reduceEq, reduceIte]
    norm_num
  have h3 : calculate_project_taxes seedDB 100000 20000 2 "US" "Business"
      "Dividend" 0 none =
      .ok { gross_income := 80000, corporate_tax := 13440, personal_tax := 0,
            se_tax := 0, state_tax := 0, dividend_tax := 9984,
            total_tax := 23424, net_income_group := 56576,
            net_income_per_person := 28288, effective_rate := 732/25,
            standard_deduction_used := 0, company_retained := 0 } := by
    norm_num [calculate_project_taxes, businessResult, distributeProfit,
      corporate_tax_for, apply_qbi_deduction, QBI_DEDUCTION_RATE,
      calculate_tax_from_db, seedDB, taxLoop, DIVIDEND_TAX_RATES]
    simp only [String.reduceEq, reduceIte]
    norm_num
  have h4 : calculate_project_taxes seedDB 100000 20000 2 "US" "Business"
      "Mixed" 0 none =
      .ok { gross_income := 80000, corporate_tax := 13440,
            personal_tax := 10913/2, se_tax := 0, state_tax := 0,
            dividend_tax := 4791/4, total_tax := 80377/4,
            net_income_group := 239623/4, net_income_per_person := 239623/8,
            effective_rate := 80377/3200, standard_deduction_used := 0,
            company_retained := 0 } := by
    norm_num [calculate_project_taxes, businessResult, distributeProfit,
      salaryPersonalTax, apply_standard_deduction, STANDARD_DEDUCTIONS,
      calculate_optimal_salary, corporate_tax_for, apply_qbi_deduction,
      QBI_DEDUCTION_RATE, calculate_tax_from_db, seedDB, SEED_US_INDIVIDUAL,
      taxLoop, DIVIDEND_TAX_RATES, min_def, max_def]
    simp only [String.reduceEq, reduceIte]
    norm_num
  have h5 : calculate_project_taxes seedDB 100000 20000 2 "US" "Business"
      "Reinvest" 0 none =
      .ok { gross_income := 80000, corporate_tax := 13440, personal_tax := 0,
            se_tax := 0, state_tax := 0, dividend_tax := 0,
            total_tax := 13440, net_income_group := 0,
            net_income_per_person := 0, effective_rate := 84/5,
            standard_deduction_used := 0, company_retained := 66560 } := by
    norm_num [calculate_project_taxes, businessResult, distributeProfit,
      corporate_tax_for, apply_qbi_deduction, QBI_DEDUCTION_RATE,
      calculate_tax_from_db, seedDB, taxLoop]
    simp only [String.reduceEq, reduceIte]
    norm_num
  obtain ⟨res, heq, _, _, _, _, _, _, hsav⟩ :=
    get_optimal_strategy_correct seedDB 100000 20000 2 "US" none _ _ _ _ _
      (by norm_num) h1 h2 h3 h4 h5 (Or.inl (by norm_num))
  exact ⟨res, heq, hsav⟩

/-- Witness for C9: US Individual with state CA, revenue 100000, one person —
the personal tax equals the DB bracket tax on income minus only the country
standard deduction. -/
theorem individual_deduction_behavior_witness :
    ∃ r pt, calculate_project_taxes seedDB 100000 0 1 "US" "Individual" "N/A"
        0 (some "CA") = .ok r ∧
      calculate_tax_from_db seedDB
        (max 0 ((100000 - 0) / ((1 : Int) : ℚ) -
          (STANDARD_DEDUCTIONS "US").getD 0)) "US" "Individual" = .ok pt ∧
      r.personal_tax = pt * ((1 : Int) : ℚ) := by
  have h : calculate_project_taxes seedDB 100000 0 1 "US" "Individual" "N/A" 0
      (some "CA") =
      .ok { gross_income := 100000, corporate_tax := 0,
            personal_tax := 14570, se_tax := 282591/20,
            state_tax := 242139/40, dividend_tax := 0,
            total_tax := 1390121/40, net_income_group := 2609879/40,
            net_income_per_person := 2609879/40,
            effective_rate := 1390121/40000,
            standard_deduction_used := 13850, company_retained := 0 } := by
    norm_num [calculate_project_taxes, individualResult, individualPerPerson,
      apply_standard_deduction, STANDARD_DEDUCTIONS, calculate_tax_from_db,
      seedDB, SEED_US_INDIVIDUAL, taxLoop, calculate_self_employment_tax,
      SE_social_security, SE_ss_wage_base, SE_medicare, SE_additional_medicare,
      SE_additional_medicare_threshold, calculate_state_tax, STATE_TAX_RATES,
      CA_STATE_BRACKETS, calculate_tax_from_brackets, min_def, max_def]
    simp only [String.reduceEq, reduceIte]
    norm_num
  obtain ⟨pt, hdb, hpt, _⟩ := individual_deduction_behavior seedDB 100000 0 1
    "US" "N/A" 0 (some "CA") _ (by decide) (by decide) h
  exact ⟨_, pt, h, hdb, hpt⟩

/-- Witness for C10: US Business with method `"N/A"` — the fallback result
taxes the entire after-corporate-tax profit through the DB Individual
brackets. -/
theorem unrecognized_method_fallback_witness :
    ∃ r corp pt, calculate_project_taxes seedDB 100000 20000 2 "US" "Business"
        "N/A" 0 none = .ok r ∧
      corporate_tax_for seedDB (100000 - 20000) "US" = .ok corp ∧
      calculate_tax_from_db seedDB (100000 - 20000 - corp) "US" "Individual" =
        .ok pt ∧
      r.personal_tax = pt ∧ r.total_tax = corp + pt := by
  have h : calculate_project_taxes seedDB 100000 20000 2 "US" "Business"
      "N/A" 0 none =
      .ok { gross_income := 80000, corporate_tax := 13440,
            personal_tax := 51301/5, se_tax := 0, state_tax := 0,
            dividend_tax := 0, total_tax := 118501/5,
            net_income_group := 281499/5, net_income_per_person := 281499/10,
            effective_rate := 118501/4000, standard_deduction_used := 0,
            company_retained := 0 } := by
    norm_num [calculate_project_taxes, businessResult, distributeProfit,
      corporate_tax_for, apply_qbi_deduction, QBI_DEDUCTION_RATE,
      calculate_tax_from_db, seedDB, SEED_US_INDIVIDUAL, taxLoop]
    simp only [String.reduceEq, reduceIte]
    norm_num
  obtain ⟨corp, pt, hc, hdb, hp, _, _, ht⟩ := unrecognized_method_fallback
    seedDB 100000 20000 2 "US" "N/A" 0 none _ (by decide) (by decide)
    (by decide) (by decide) h
  exact ⟨_, corp, pt, h, hc, hdb, hp, ht⟩
